import Mathlib

/-!
# Verification of the AutoArtifacts core subsystem

This file gives a shallow embedding, in Lean 4, of the core subsystem of the
AutoArtifacts repository: the ratio parser and layout resolver
(`src/utils/slideNavigation.ts`: `parseLayout`, `applyLayoutToRow`), the
structural validator (`validation.ts`: `validateNodeStructure`, `validateDoc`,
`validateSlide`, `validateRow`, `validateContent`, `safeValidateContent`) and
the presentation-navigation operations (`slideNavigation.ts`: `showSlide`,
`showAllSlides`, `getCurrentSlideIndex`, `nextSlide`, `prevSlide`,
`goToSlide`), together with theorems settling the specification claims about
them.

Modelling conventions:
* JavaScript numbers appearing as slide indices and parsed ratios are modelled
  as `Int` (all values that actually arise are integers).
* `console.warn` diagnostics are modelled as an explicit list of warning
  strings returned alongside the result.
* The optional `onSlideChange` callback is modelled as an `Option Int`
  component of the result: `some i` means the callback would have been invoked
  with index `i`, `none` means it would not have been invoked.
* Thrown `ValidationError`s are modelled with `Except String`.
-/

namespace AutoArtifacts

/-! ## RatioParser: `parseLayout` (src/utils/slideNavigation.ts)

```js
export function parseLayout(layout: string, columnCount: number): number[] {
  if (!layout) { return new Array(columnCount).fill(1); }
  if (!/^\d+(-\d+)*$/.test(layout)) {
    console.warn(`Invalid layout format '${layout}'. Using equal distribution.`);
    return new Array(columnCount).fill(1);
  }
  const ratios = layout.split("-").map(Number);
  if (ratios.length !== columnCount) {
    console.warn(`Layout '${layout}' expects ${ratios.length} columns but found ${columnCount}. Using equal distribution.`);
    return new Array(columnCount).fill(1);
  }
  return ratios;
}
```
-/

/-- Splitting a character list on the separator character of the layout
notation, the hyphen.  Mirrors JavaScript `layout.split("-")` (for the
single-character separator `"-"`): `"2-1"` becomes `["2", "1"]`, an empty
string becomes `[""]`, adjacent or leading/trailing hyphens produce empty
segments. -/
def splitOnDash : List Char → List (List Char)
  | [] => [[]]
  | c :: rest =>
    if c = '-' then [] :: splitOnDash rest
    else
      match splitOnDash rest with
      | [] => [[c]]
      | seg :: segs => (c :: seg) :: segs

/-- A segment is a non-empty run of decimal digits.  The JavaScript regex
`/^\d+(-\d+)*$/` accepts exactly the strings all of whose hyphen-split
segments satisfy this predicate (one or more digit groups separated by single
hyphens, no leading/trailing hyphen, no empty segment, no other character). -/
def isDigitSeg (seg : List Char) : Bool :=
  !seg.isEmpty && seg.all Char.isDigit

/-- The format test `/^\d+(-\d+)*$/.test(layout)`. -/
def layoutFormatOk (layout : String) : Bool :=
  (splitOnDash layout.data).all isDigitSeg

/-- JavaScript `Number(seg)` for an all-digit segment: the decimal value of
the digit string, as an integer.  (On non-digit input this fold is meaningless,
but `parseLayout` only applies it after the format test has passed.) -/
def parseSegment (seg : List Char) : Int :=
  seg.foldl (fun acc c => acc * 10 + ((c.toNat : Int) - 48)) 0

/-- Model of `parseLayout(layout, columnCount)`.  Returns the ratio vector together
with the list of `console.warn` diagnostics the call emits. -/
def parseLayout (layout : String) (columnCount : Nat) : List Int × List String :=
  if layout = "" then
    (List.replicate columnCount 1, [])
  else if !layoutFormatOk layout then
    (List.replicate columnCount 1,
      ["Invalid layout format '" ++ layout ++ "'. Using equal distribution."])
  else
    let ratios := (splitOnDash layout.data).map parseSegment
    if ratios.length ≠ columnCount then
      (List.replicate columnCount 1,
        ["Layout '" ++ layout ++ "' expects " ++ toString ratios.length ++
          " columns but found " ++ toString columnCount ++ ". Using equal distribution."])
    else
      (ratios, [])

/-! ## LayoutResolver: `applyLayoutToRow` (src/utils/slideNavigation.ts)

```js
export function applyLayoutToRow(rowElement: HTMLElement, layout: string) {
  const columns = Array.from(rowElement.children) as HTMLElement[];
  const ratios = parseLayout(layout, columns.length);
  columns.forEach((column, index) => {
    column.style.flex = `${ratios[index]} 1 0%`;
  });
}
```
-/

/-- A column element, as far as the layout resolver touches it: its
`style.flex` inline property (absent before any assignment). -/
structure Column where
  flex : Option String := none
  deriving Repr, DecidableEq

/-- JavaScript template interpolation of `ratios[index]`: the decimal
rendering of the ratio when `index` is in bounds, the string `"undefined"`
for an out-of-bounds access (which `applyLayoutToRow` never performs, since
`parseLayout` always returns exactly `columns.length` ratios). -/
def ratioAt (ratios : List Int) (i : Nat) : String :=
  match ratios.get? i with
  | some r => toString r
  | none => "undefined"

/-- The CSS flex shorthand written by the resolver: `grow shrink basis`. -/
def flexDirective (grow : String) (shrink : Nat) (basis : String) : String :=
  grow ++ " " ++ toString shrink ++ " " ++ basis

/-- The indexed `forEach` loop of `applyLayoutToRow`: assign column `i`
(counting from `i0`) the directive built from `ratios[i]`. -/
def assignFlexFrom (ratios : List Int) : Nat → List Column → List Column
  | _, [] => []
  | i, c :: rest =>
    { c with flex := some (flexDirective (ratioAt ratios i) 1 "0%") } ::
      assignFlexFrom ratios (i + 1) rest

/-- Model of `applyLayoutToRow(rowElement, layout)`, with the row's ordered children
given as a list of columns. -/
def applyLayoutToRow (columns : List Column) (layout : String) : List Column :=
  let ratios := (parseLayout layout columns.length).1
  assignFlexFrom ratios 0 columns

/-! ## NavigationState (src/utils/slideNavigation.ts)

A slide element, as far as navigation touches it: its `style.display` inline
property and its `data-active` attribute.  `showSlide` writes
`display = "block" / "none"` and `data-active = "true" / "false"`;
`showAllSlides` writes `display = "block"` and removes the attribute;
`getCurrentSlideIndex` scans for the first slide whose attribute is `"true"`
and defaults to `0`.  `console.warn` diagnostics are again returned as a
string list, and the optional `onSlideChange` callback as an `Option Int`
(`some i` = invoked with `i`). -/

structure Slide where
  display : Option String := none
  dataActive : Option String := none
  deriving Repr, DecidableEq

/-- The indexed `forEach` loop of `showSlide`: slide `index` gets shown and
marked active exactly when `index === slideIndex`, all others get hidden and
marked inactive. -/
def markSlides (slideIndex : Int) : Nat → List Slide → List Slide
  | _, [] => []
  | i, s :: rest =>
    (if (i : Int) = slideIndex then
      { s with display := some "block", dataActive := some "true" }
    else
      { s with display := some "none", dataActive := some "false" }) ::
      markSlides slideIndex (i + 1) rest

/-- The `console.warn` message emitted for an out-of-range slide index. -/
def invalidIndexWarning (slideIndex : Int) (count : Nat) : String :=
  "[AutoArtifacts] Invalid slide index " ++ toString slideIndex ++
    ". Must be between 0 and " ++ toString ((count : Int) - 1)

/-- Model of `showSlide(editorElement, slideIndex)`: show only the specified slide,
hide all others; an out-of-range index is rejected with a diagnostic and the
collection is left unchanged. -/
def showSlide (slides : List Slide) (slideIndex : Int) : List Slide × List String :=
  if slideIndex < 0 || (slides.length : Int) ≤ slideIndex then
    (slides, [invalidIndexWarning slideIndex slides.length])
  else
    (markSlides slideIndex 0 slides, [])

/-- Model of `showAllSlides(editorElement)`: show every slide and remove the
`data-active` attribute from each. -/
def showAllSlides (slides : List Slide) : List Slide :=
  slides.map fun s => { s with display := some "block", dataActive := none }

/-- The scanning loop of `getCurrentSlideIndex`: return the position of the
first slide whose `data-active` attribute equals `"true"`, or `0` when the
scan falls off the end. -/
def findActiveIndex : Nat → List Slide → Nat
  | _, [] => 0
  | i, s :: rest =>
    if s.dataActive == some "true" then i else findActiveIndex (i + 1) rest

/-- Model of `getCurrentSlideIndex(editorElement)`. -/
def getCurrentSlideIndex (slides : List Slide) : Nat :=
  findActiveIndex 0 slides

/-- Model of `nextSlide(editorElement, onSlideChange?)`. -/
def nextSlide (slides : List Slide) : List Slide × List String × Option Int :=
  let currentIndex := getCurrentSlideIndex slides
  let slideCount := slides.length
  if (currentIndex : Int) < (slideCount : Int) - 1 then
    let newIndex := currentIndex + 1
    let r := showSlide slides (newIndex : Int)
    (r.1, r.2, some (newIndex : Int))
  else
    (slides, [], none)

/-- Model of `prevSlide(editorElement, onSlideChange?)`. -/
def prevSlide (slides : List Slide) : List Slide × List String × Option Int :=
  let currentIndex := getCurrentSlideIndex slides
  if 0 < currentIndex then
    let newIndex := currentIndex - 1
    let r := showSlide slides (newIndex : Int)
    (r.1, r.2, some (newIndex : Int))
  else
    (slides, [], none)

/-- Model of `goToSlide(editorElement, slideIndex, onSlideChange?)`.  Note that the
source invokes `onSlideChange(slideIndex)` unconditionally after the
`showSlide` call, whether or not the index was in range. -/
def goToSlide (slides : List Slide) (slideIndex : Int) :
    List Slide × List String × Option Int :=
  let r := showSlide slides slideIndex
  (r.1, r.2, some slideIndex)

/-- Number of slides in the collection carrying the active marker. -/
def activeCount (slides : List Slide) : Nat :=
  slides.countP fun s => s.dataActive == some "true"

/-- A concrete three-slide collection in its initial state (no inline
display style, no active marker). -/
def slides3 : List Slide := [{}, {}, {}]

/-- The three-slide collection with slide 2 active, as produced by
`showSlide`. -/
def slides3at2 : List Slide := (showSlide slides3 2).1

/-! ## StructureValidator (validation.ts)

The candidate document is an arbitrary JSON-like value.  `jnull` models both
JavaScript `null` and `undefined` (they behave identically in every check the
validator performs: both are falsy and neither carries properties).  Property
access `node.prop` is modelled by `getProp`, which yields the first binding
of the key in an object and `none` (undefined) on every other value. -/

inductive JVal where
  | jnull
  | jbool (b : Bool)
  | jnum (n : Int)
  | jstr (s : String)
  | jarr (elems : List JVal)
  | jobj (fields : List (String × JVal))

/-- JavaScript truthiness of a value (`!v` is `!truthy v`).  `NaN`, absent
from the model, is the only falsy number besides 0. -/
def truthy : JVal → Bool
  | .jnull => false
  | .jbool b => b
  | .jnum n => decide (n ≠ 0)
  | .jstr s => decide (s ≠ "")
  | .jarr _ => true
  | .jobj _ => true

/-- Whether `typeof v === "object"`: true for objects, arrays and `null`. -/
def typeofObject : JVal → Bool
  | .jnull => true
  | .jarr _ => true
  | .jobj _ => true
  | _ => false

/-- Property access `v[name]`: `none` models `undefined`. -/
def getProp : JVal → String → Option JVal
  | .jobj fields, name => fields.lookup name
  | _, _ => none

/-- Whether `typeof v === "string"`. -/
def isStringVal : JVal → Bool
  | .jstr _ => true
  | _ => false

/-- Whether `v.type === tag` (strict equality against a string literal). -/
def typeIs (node : JVal) (tag : String) : Bool :=
  match getProp node "type" with
  | some (.jstr s) => s == tag
  | _ => false

/-- Template-literal stringification of the `type` property in the
"got '...'" diagnostics.  At every call site `validateNodeStructure` has
already ensured the property is a non-empty string, so only the `jstr` case
is ever reached; the remaining cases follow the JavaScript `String()`
conventions for completeness (the unreachable array case is modelled
shallowly as the empty string). -/
def jsDisplay : Option JVal → String
  | some (.jstr s) => s
  | some .jnull => "null"
  | some (.jbool true) => "true"
  | some (.jbool false) => "false"
  | some (.jnum n) => toString n
  | some (.jarr _) => ""
  | some (.jobj _) => "[object Object]"
  | none => "undefined"

/-- Model of `validateNodeStructure(node, path)`: require an object-shaped truthy
value carrying a truthy string `type` property. -/
def validateNodeStructure (node : JVal) (path : String) : Except String Unit :=
  if !truthy node || !typeofObject node then
    .error (path ++ ": Node must be an object")
  else
    match getProp node "type" with
    | none => .error (path ++ ": Node must have a 'type' string property")
    | some t =>
      if !truthy t || !isStringVal t then
        .error (path ++ ": Node must have a 'type' string property")
      else
        .ok ()

/-- The path of child `i` of the node at `path`:
`` `${path}.content[${index}]` ``. -/
def childPath (path : String) (i : Nat) : String :=
  path ++ ".content[" ++ toString i ++ "]"

/-- Model of `validateRow(row, path)`.  A thrown `ValidationError` is an `Except.error`
that propagates past the remaining statements, so the sequential `throw`s of
the source become nested matches. -/
def validateRow (row : JVal) (path : String) : Except String Unit :=
  match validateNodeStructure row path with
  | .error e => .error e
  | .ok () =>
    if !typeIs row "row" then
      .error (path ++ ": Expected 'row', got '" ++ jsDisplay (getProp row "type") ++ "'")
    else
      match getProp row "content" with
      | some (.jarr content) =>
        if content.length = 0 then
          .error (path ++ ": Row must have at least one column or content block")
        else
          .ok ()
      | _ => .error (path ++ ": Row must have content array")

/-- The indexed `forEach` loop of `validateSlide`: validate each child of the
slide at `path` as a row (a thrown error aborts the iteration). -/
def validateRowsFrom (path : String) : Nat → List JVal → Except String Unit
  | _, [] => .ok ()
  | i, r :: rest =>
    match validateRow r (childPath path i) with
    | .error e => .error e
    | .ok () => validateRowsFrom path (i + 1) rest

/-- Model of `validateSlide(slide, path)`. -/
def validateSlide (slide : JVal) (path : String) : Except String Unit :=
  match validateNodeStructure slide path with
  | .error e => .error e
  | .ok () =>
    if !typeIs slide "slide" then
      .error (path ++ ": Expected 'slide', got '" ++ jsDisplay (getProp slide "type") ++ "'")
    else
      match getProp slide "content" with
      | some (.jarr content) =>
        if content.length = 0 then
          .error (path ++ ": Slide must have at least one row")
        else
          validateRowsFrom path 0 content
      | _ => .error (path ++ ": Slide must have content array")

/-- The indexed `forEach` loop of `validateDoc`: validate each child of the
root as a slide, at path `` `doc.content[${index}]` ``. -/
def validateSlidesFrom : Nat → List JVal → Except String Unit
  | _, [] => .ok ()
  | i, s :: rest =>
    match validateSlide s (childPath "doc" i) with
    | .error e => .error e
    | .ok () => validateSlidesFrom (i + 1) rest

/-- Model of `validateDoc(doc)`. -/
def validateDoc (doc : JVal) : Except String Unit :=
  match validateNodeStructure doc "doc" with
  | .error e => .error e
  | .ok () =>
    if !typeIs doc "doc" then
      .error ("Root node must be type 'doc', got '" ++ jsDisplay (getProp doc "type") ++ "'")
    else
      match getProp doc "content" with
      | some (.jarr content) =>
        if content.length = 0 then
          .error "Doc must have at least one slide"
        else
          validateSlidesFrom 0 content
      | _ => .error "Doc must have content array"

/-- Model of `validateContent(content)`: the strict entry point.  The source wraps
`validateDoc` in a `try`/`catch` that rethrows `ValidationError`s unchanged
and wraps any other exception; `validateDoc` only ever throws
`ValidationError`s (modelled by `Except.error`), so the wrap branch is dead
and the entry point returns `true` exactly when `validateDoc` succeeds. -/
def validateContent (content : JVal) : Except String Bool :=
  match validateDoc content with
  | .ok () => .ok true
  | .error e => .error e

/-- The result object of the safe entry point: `{ valid, error? }`. -/
structure SafeResult where
  valid : Bool
  error : Option String := none
  deriving Repr, DecidableEq

/-- Model of `safeValidateContent(content)`: never throws; catches the
`ValidationError` of the strict entry point into a result object.  (The
`"Unknown validation error"` branch of the source catches non-ValidationError
exceptions, which the strict entry point never produces.) -/
def safeValidateContent (content : JVal) : SafeResult :=
  match validateContent content with
  | .ok _ => { valid := true }
  | .error e => { valid := false, error := some e }

/-- A candidate row in the shape the validator accepts: a truthy
object-typed value tagged `"row"` whose `content` is a non-empty array.  No
constraint is placed on the array's elements — validation is shallow at the
row boundary. -/
def rowShapeOk (row : JVal) : Bool :=
  truthy row && typeofObject row && typeIs row "row" &&
    match getProp row "content" with
    | some (.jarr content) => !content.isEmpty
    | _ => false

/-- A candidate slide in the shape the validator accepts: tagged `"slide"`
with a non-empty `content` array of well-shaped rows. -/
def slideShapeOk (slide : JVal) : Bool :=
  truthy slide && typeofObject slide && typeIs slide "slide" &&
    match getProp slide "content" with
    | some (.jarr content) => !content.isEmpty && content.all rowShapeOk
    | _ => false

/-- A candidate document in the shape the validator accepts: tagged `"doc"`
with a non-empty `content` array of well-shaped slides. -/
def docShapeOk (doc : JVal) : Bool :=
  truthy doc && typeofObject doc && typeIs doc "doc" &&
    match getProp doc "content" with
    | some (.jarr content) => !content.isEmpty && content.all slideShapeOk
    | _ => false

/-- The dotted/bracketed index-chain paths rooted at `"doc"` that the
validator builds: `"doc"`, `"doc.content[i]"`, `"doc.content[i].content[j]"`,
and so on. -/
inductive DocPath : String → Prop where
  | root : DocPath "doc"
  | child (p : String) (i : Nat) : DocPath p → DocPath (childPath p i)

/-- A concrete well-shaped document whose single row contains arbitrary
junk children (`null`, `false`, `0`, `""`, `[]`) that no deeper validator
would accept. -/
def docW : JVal :=
  .jobj [("type", .jstr "doc"),
    ("content", .jarr [
      .jobj [("type", .jstr "slide"),
        ("content", .jarr [
          .jobj [("type", .jstr "row"),
            ("content", .jarr [.jnull, .jbool false, .jnum 0, .jstr "", .jarr []])]])]])]

/-! ## Theorems -/


/-! Basic facts about the parser. -/

theorem char_isDigit_toNat {c : Char} (h : c.isDigit = true) :
    48 ≤ c.toNat ∧ c.toNat ≤ 57 := by
  simp only [Char.isDigit, decide_eq_true_eq, Bool.and_eq_true] at h
  obtain ⟨h1, h2⟩ := h
  constructor
  · exact h1
  · exact h2

theorem parseSegment_foldl_nonneg (seg : List Char) (hd : seg.all Char.isDigit = true) :
    ∀ acc : Int, 0 ≤ acc →
      0 ≤ seg.foldl (fun acc c => acc * 10 + ((c.toNat : Int) - 48)) acc := by
  induction seg with
  | nil => intro acc hacc; simpa using hacc
  | cons c rest ih =>
    intro acc hacc
    simp only [List.all_cons, Bool.and_eq_true] at hd
    obtain ⟨hc, hrest⟩ := hd
    have h48 : 48 ≤ c.toNat := (char_isDigit_toNat hc).1
    have : (0 : Int) ≤ acc * 10 + ((c.toNat : Int) - 48) := by
      have : (48 : Int) ≤ (c.toNat : Int) := by exact_mod_cast h48
      nlinarith
    simpa using ih hrest _ this

theorem parseSegment_nonneg (seg : List Char) (hd : isDigitSeg seg = true) :
    0 ≤ parseSegment seg := by
  simp only [isDigitSeg, Bool.and_eq_true] at hd
  exact parseSegment_foldl_nonneg seg hd.2 0 le_rfl

example : parseLayout "2-1" 2 = ([2, 1], []) := by decide

example : parseLayout "" 3 = ([1, 1, 1], []) := by decide

example : (parseLayout "abc" 2).1 = [1, 1] := by decide

example : (parseLayout "2-1" 3).1 = [1, 1, 1] := by decide

theorem parseLayout_length (layout : String) (n : Nat) :
    (parseLayout layout n).1.length = n := by
  unfold parseLayout
  by_cases hempty : layout = ""
  · simp only [hempty, if_pos rfl]
    exact List.length_replicate _ _
  · rw [if_neg hempty]
    by_cases hfmt : layoutFormatOk layout = true
    · rw [hfmt]
      simp only [Bool.not_true, Bool.false_eq_true, if_false]
      by_cases hlen : ((splitOnDash layout.data).map parseSegment).length ≠ n
      · rw [if_pos hlen]
        exact List.length_replicate _ _
      · rw [if_neg hlen]
        push_neg at hlen
        simpa using hlen
    · simp only [Bool.not_eq_true] at hfmt
      rw [hfmt]
      simp only [Bool.not_false, if_true]
      exact List.length_replicate _ _

theorem parseLayout_mem_nonneg (layout : String) (n : Nat) :
    ∀ r ∈ (parseLayout layout n).1, 0 ≤ r := by
  unfold parseLayout
  by_cases hempty : layout = ""
  · simp only [hempty, if_pos rfl]
    intro r hr
    rw [List.eq_of_mem_replicate hr]
    norm_num
  · rw [if_neg hempty]
    by_cases hfmt : layoutFormatOk layout = true
    · rw [hfmt]
      simp only [Bool.not_true, Bool.false_eq_true, if_false]
      by_cases hlen : ((splitOnDash layout.data).map parseSegment).length ≠ n
      · rw [if_pos hlen]
        intro r hr
        rw [List.eq_of_mem_replicate hr]
        norm_num
      · rw [if_neg hlen]
        intro r hr
        simp only [List.mem_map] at hr
        obtain ⟨seg, hseg, rfl⟩ := hr
        have hall : (splitOnDash layout.data).all isDigitSeg = true := hfmt
        rw [List.all_eq_true] at hall
        exact parseSegment_nonneg seg (hall seg hseg)
    · simp only [Bool.not_eq_true] at hfmt
      rw [hfmt]
      simp only [Bool.not_false, if_true]
      intro r hr
      rw [List.eq_of_mem_replicate hr]
      norm_num

/-- C1.  Ratio parsing totality: for every layout string and every
`columnCount ≥ 1`, `parseLayout` returns a vector of exactly `columnCount`
non-negative integers.  (It never throws: it is modelled by a total Lean
function, every branch of which returns a vector.) -/
theorem parseLayout_total (layout : String) (n : Nat) (hn : 1 ≤ n) :
    (parseLayout layout n).1.length = n ∧
      ∀ r ∈ (parseLayout layout n).1, 0 ≤ r :=
  ⟨parseLayout_length layout n, parseLayout_mem_nonneg layout n⟩

/-- Witness for C1 at the concrete input `("5-3-2", 3)`. -/
theorem parseLayout_total_witness :
    (parseLayout "5-3-2" 3).1.length = 3 ∧
      ∀ r ∈ (parseLayout "5-3-2" 3).1, 0 ≤ r :=
  parseLayout_total "5-3-2" 3 (by decide)

/-- C2.  Equal-distribution fallback correctness: `parseLayout "" 3` returns
`[1,1,1]` with no diagnostic; `parseLayout "abc" 2` returns `[1,1]` with a
diagnostic; `parseLayout "2-1" 3` returns `[1,1,1]` with a count-mismatch
diagnostic; and for every `n ≥ 1`, `parseLayout "auto" n` returns `n` copies
of `1`. -/
theorem parseLayout_fallback :
    parseLayout "" 3 = ([1, 1, 1], []) ∧
      ((parseLayout "abc" 2).1 = [1, 1] ∧ (parseLayout "abc" 2).2 ≠ []) ∧
      ((parseLayout "2-1" 3).1 = [1, 1, 1] ∧
        (parseLayout "2-1" 3).2 =
          ["Layout '2-1' expects 2 columns but found 3. Using equal distribution."]) ∧
      ∀ n : Nat, 1 ≤ n → (parseLayout "auto" n).1 = List.replicate n 1 := by
  refine ⟨by decide, ⟨by decide, by decide⟩, ⟨by decide, by decide⟩, ?_⟩
  intro n _
  rw [parseLayout, if_neg (by decide : ¬("auto" : String) = ""),
    if_pos (by decide : (!layoutFormatOk "auto") = true)]

/-- Witness for C2 at `n = 4` for the universally quantified "auto" clause. -/
theorem parseLayout_fallback_witness :
    (parseLayout "auto" 4).1 = List.replicate 4 1 :=
  parseLayout_fallback.2.2.2 4 (by decide)

theorem assignFlexFrom_length (ratios : List Int) :
    ∀ (i : Nat) (cs : List Column), (assignFlexFrom ratios i cs).length = cs.length := by
  intro i cs
  induction cs generalizing i with
  | nil => rfl
  | cons c rest ih => simp [assignFlexFrom, ih]

theorem assignFlexFrom_get (ratios : List Int) :
    ∀ (cs : List Column) (i0 j : Nat),
      (assignFlexFrom ratios i0 cs).get? j =
        (cs.get? j).map
          (fun c => { c with flex := some (flexDirective (ratioAt ratios (i0 + j)) 1 "0%") }) := by
  intro cs
  induction cs with
  | nil => intro i0 j; rfl
  | cons c rest ih =>
    intro i0 j
    cases j with
    | zero => simp [assignFlexFrom]
    | succ j' =>
      simp only [assignFlexFrom, List.get?_cons_succ, ih (i0 + 1) j']
      have : i0 + 1 + j' = i0 + (j' + 1) := by omega
      rw [this]

/-- C10.  Layout resolution directive: for a row with `n ≥ 1` ordered sibling
columns and any layout string, column `i` (for every `i < n`) is assigned the
three-part flex directive whose grow component is `parseLayout layout n` at
`i`, whose shrink component is `1` and whose basis component is `0%`; a row
with zero siblings is a no-op. -/
theorem applyLayoutToRow_directives (columns : List Column) (layout : String)
    (i : Nat) (hi : i < columns.length) :
    ((applyLayoutToRow columns layout).get? i).map Column.flex =
      some (some (flexDirective
        (toString (((parseLayout layout columns.length).1).getD i 0)) 1 "0%")) ∧
      applyLayoutToRow [] layout = [] := by
  constructor
  · have hlen : (parseLayout layout columns.length).1.length = columns.length :=
      parseLayout_length layout columns.length
    rw [applyLayoutToRow, assignFlexFrom_get]
    have hi2 : i < (parseLayout layout columns.length).1.length := by
      rw [hlen]; exact hi
    have hoc : columns.get? i = some (columns.get ⟨i, hi⟩) := List.get?_eq_get hi
    have hor : (parseLayout layout columns.length).1.get? i =
        some ((parseLayout layout columns.length).1.get ⟨i, hi2⟩) :=
      List.get?_eq_get hi2
    rw [hoc]
    simp only [Option.map_some', Nat.zero_add, ratioAt]
    rw [List.get?_eq_getElem?] at hor
    simp only [List.get?_eq_getElem?]
    rw [hor, List.getD_eq_getElem?_getD, hor]
    rfl
  · rfl

/-- Witness for C10 on a concrete two-column row with layout `"2-1"`. -/
theorem applyLayoutToRow_directives_witness :
    ((applyLayoutToRow [⟨none⟩, ⟨none⟩] "2-1").get? 1).map Column.flex =
      some (some (flexDirective
        (toString (((parseLayout "2-1" 2).1).getD 1 0)) 1 "0%")) ∧
      applyLayoutToRow [] "2-1" = [] :=
  applyLayoutToRow_directives [⟨none⟩, ⟨none⟩] "2-1" 1 (by decide)

/-! Facts about the marking loop. -/

theorem activeCount_markSlides (t : Int) (l : List Slide) :
    ∀ i : Nat,
      activeCount (markSlides t i l) =
        if (i : Int) ≤ t ∧ t < (i : Int) + l.length then 1 else 0 := by
  induction l with
  | nil =>
    intro i
    have h : ¬((i : Int) ≤ t ∧ t < (i : Int) + (([] : List Slide).length : Int)) := by
      simp only [List.length_nil]
      push_cast
      omega
    simp only [markSlides, activeCount, List.countP_nil, if_neg h]
  | cons s rest ih =>
    intro i
    have hrest := ih (i + 1)
    simp only [activeCount] at hrest ⊢
    simp only [markSlides, List.countP_cons, hrest]
    by_cases hit : (i : Int) = t
    · have h1 : ¬(((i + 1 : Nat) : Int) ≤ t ∧
          t < ((i + 1 : Nat) : Int) + (rest.length : Int)) := by
        push_cast
        omega
      have h2 : (i : Int) ≤ t ∧ t < (i : Int) + ((s :: rest).length : Int) := by
        simp only [List.length_cons]
        push_cast
        omega
      rw [if_pos hit, if_neg h1, if_pos h2]
      decide
    · have h3 : (((i + 1 : Nat) : Int) ≤ t ∧
            t < ((i + 1 : Nat) : Int) + (rest.length : Int)) ↔
          ((i : Int) ≤ t ∧ t < (i : Int) + ((s :: rest).length : Int)) := by
        simp only [List.length_cons]
        push_cast
        omega
      simp only [if_neg hit, h3]
      by_cases h : (i : Int) ≤ t ∧ t < (i : Int) + ((s :: rest).length : Int)
      · rw [if_pos h]
        decide
      · rw [if_neg h]
        decide

theorem findActiveIndex_markSlides (t : Nat) (l : List Slide) :
    ∀ i : Nat, i ≤ t → t < i + l.length →
      findActiveIndex i (markSlides (t : Int) i l) = t := by
  induction l with
  | nil =>
    intro i _ hlt
    simp only [List.length_nil] at hlt
    omega
  | cons s rest ih =>
    intro i hle hlt
    by_cases hit : i = t
    · subst hit
      simp [markSlides, findActiveIndex]
    · have hine : ((i : Nat) : Int) ≠ (t : Int) := by exact_mod_cast hit
      simp only [markSlides, if_neg hine, findActiveIndex]
      rw [if_neg (by decide)]
      exact ih (i + 1) (by omega) (by simp only [List.length_cons] at hlt; omega)

theorem findActiveIndex_of_no_active (l : List Slide)
    (h : ∀ s ∈ l, s.dataActive ≠ some "true") :
    ∀ i : Nat, findActiveIndex i l = 0 := by
  induction l with
  | nil => intro i; rfl
  | cons s rest ih =>
    intro i
    have hs : s.dataActive ≠ some "true" := h s (by simp)
    simp only [findActiveIndex]
    rw [if_neg (by simpa using hs)]
    exact ih (fun x hx => h x (by simp [hx])) (i + 1)

theorem activeCount_showSlide_inRange (slides : List Slide) (i : Int)
    (h0 : 0 ≤ i) (hlt : i < (slides.length : Int)) :
    activeCount (showSlide slides i).1 = 1 := by
  have hcond : ¬((i < 0 || (slides.length : Int) ≤ i) = true) := by
    simp only [Bool.or_eq_true, decide_eq_true_eq]
    omega
  rw [showSlide, if_neg hcond]
  simp only
  rw [activeCount_markSlides i slides 0]
  rw [if_pos (by push_cast; omega)]

theorem activeCount_showSlide_le (slides : List Slide)
    (inv : activeCount slides ≤ 1) (i : Int) :
    activeCount (showSlide slides i).1 ≤ 1 := by
  by_cases hcond : (i < 0 || (slides.length : Int) ≤ i) = true
  · rw [showSlide, if_pos hcond]
    exact inv
  · have h0 : 0 ≤ i ∧ i < (slides.length : Int) := by
      simp only [Bool.or_eq_true, decide_eq_true_eq] at hcond
      omega
    rw [activeCount_showSlide_inRange slides i h0.1 h0.2]

theorem activeCount_showAllSlides (slides : List Slide) :
    activeCount (showAllSlides slides) = 0 := by
  rw [activeCount, List.countP_eq_zero]
  intro s hs
  simp only [showAllSlides, List.mem_map] at hs
  obtain ⟨x, _, rfl⟩ := hs
  decide

/-- C6.  Navigation bounds (no wraparound): on a 3-slide collection,
`prevSlide` at active index 0 is a silent no-op, `nextSlide` at active
index 2 is a silent no-op, and `goToSlide 5` leaves the collection unchanged
and is rejected with a diagnostic. -/
theorem navigation_bounds (slides : List Slide) (h3 : slides.length = 3) :
    (getCurrentSlideIndex slides = 0 → prevSlide slides = (slides, [], none)) ∧
      (getCurrentSlideIndex slides = 2 → nextSlide slides = (slides, [], none)) ∧
      (goToSlide slides 5).1 = slides ∧ (goToSlide slides 5).2.1 ≠ [] := by
  refine ⟨?_, ?_, ?_, ?_⟩
  · intro h0
    simp [prevSlide, h0]
  · intro h2
    simp [nextSlide, h2, h3]
  · have hle : slides.length ≤ 5 := by omega
    simp [goToSlide, showSlide, hle]
  · have hle : slides.length ≤ 5 := by omega
    simp [goToSlide, showSlide, hle]

/-- Witness for C6: both no-op clauses and the `goToSlide 5` clause at
concrete three-slide collections. -/
theorem navigation_bounds_witness :
    prevSlide slides3 = (slides3, [], none) ∧
      nextSlide slides3at2 = (slides3at2, [], none) ∧
      (goToSlide slides3 5).1 = slides3 ∧ (goToSlide slides3 5).2.1 ≠ [] :=
  ⟨(navigation_bounds slides3 (by decide)).1 (by decide),
    (navigation_bounds slides3at2 (by decide)).2.1 (by decide),
    (navigation_bounds slides3 (by decide)).2.2.1,
    (navigation_bounds slides3 (by decide)).2.2.2⟩

/-- C7 counterexample: on the three-slide collection, `goToSlide 5` has an
out-of-range index and leaves the collection unchanged, yet the
`onSlideChange` notification IS invoked (with index 5) — the source calls the
callback unconditionally after `showSlide`, so the claim that the callback
"is not invoked for an out-of-range index" is false. -/
theorem goToSlide_notify_counterexample :
    (slides3.length : Int) ≤ 5 ∧ (goToSlide slides3 5).1 = slides3 ∧
      (goToSlide slides3 5).2.2 = some 5 := by decide

/-- C7 amended.  `goToSlide` validates bounds via `showSlide`'s own check —
an out-of-range index leaves the collection unchanged and emits a
diagnostic — but the outward notification callback is invoked
unconditionally with the requested index, whether or not the index is in
range. -/
theorem goToSlide_notify (slides : List Slide) (i : Int) :
    goToSlide slides i = ((showSlide slides i).1, (showSlide slides i).2, some i) ∧
      ((i < 0 ∨ (slides.length : Int) ≤ i) →
        (goToSlide slides i).1 = slides ∧ (goToSlide slides i).2.1 ≠ []) := by
  constructor
  · rfl
  · intro hout
    have hcond : (i < 0 || (slides.length : Int) ≤ i) = true := by
      simp only [Bool.or_eq_true, decide_eq_true_eq]
      tauto
    simp [goToSlide, showSlide, hcond]

/-- Witness for C7 (amended) at the out-of-range index 7 on the three-slide
collection. -/
theorem goToSlide_notify_witness :
    goToSlide slides3 7 = ((showSlide slides3 7).1, (showSlide slides3 7).2, some 7) ∧
      (goToSlide slides3 7).1 = slides3 ∧ (goToSlide slides3 7).2.1 ≠ [] := by
  have h := goToSlide_notify slides3 7
  exact ⟨h.1, h.2 (by decide)⟩

/-- C8.  Navigation round-trip: on a collection of at least two slides,
`showSlide 1` followed by `getCurrentSlideIndex` returns 1, and after
`showAllSlides` the current index is 0 because no active marker is present. -/
theorem navigation_round_trip (slides : List Slide) (h2 : 2 ≤ slides.length) :
    getCurrentSlideIndex (showSlide slides 1).1 = 1 ∧
      getCurrentSlideIndex (showAllSlides slides) = 0 := by
  constructor
  · have hcond : ¬(((1 : Int) < 0 || (slides.length : Int) ≤ 1) = true) := by
      simp only [Bool.or_eq_true, decide_eq_true_eq]
      omega
    rw [showSlide, if_neg hcond]
    simp only [getCurrentSlideIndex]
    have h := findActiveIndex_markSlides 1 slides 0 (by omega) (by omega)
    push_cast at h
    exact h
  · exact findActiveIndex_of_no_active _ (by
      intro s hs
      simp only [showAllSlides, List.mem_map] at hs
      obtain ⟨x, _, rfl⟩ := hs
      simp) 0

/-- Witness for C8 on the concrete three-slide collection. -/
theorem navigation_round_trip_witness :
    getCurrentSlideIndex (showSlide slides3 1).1 = 1 ∧
      getCurrentSlideIndex (showAllSlides slides3) = 0 :=
  navigation_round_trip slides3 (by decide)

/-- C9.  Single-active-slide invariant: "at most one slide carries the active
marker" is preserved by every navigation operation with any argument;
moreover an in-range `showSlide` establishes exactly one active slide and
`showAllSlides` establishes zero. -/
theorem navigation_single_active (slides : List Slide)
    (inv : activeCount slides ≤ 1) :
    (∀ i : Int, activeCount (showSlide slides i).1 ≤ 1) ∧
      activeCount (showAllSlides slides) = 0 ∧
      activeCount (nextSlide slides).1 ≤ 1 ∧
      activeCount (prevSlide slides).1 ≤ 1 ∧
      (∀ i : Int, activeCount (goToSlide slides i).1 ≤ 1) ∧
      (∀ i : Int, 0 ≤ i → i < (slides.length : Int) →
        activeCount (showSlide slides i).1 = 1) := by
  refine ⟨fun i => activeCount_showSlide_le slides inv i,
    activeCount_showAllSlides slides, ?_, ?_,
    fun i => activeCount_showSlide_le slides inv i,
    fun i h0 hlt => activeCount_showSlide_inRange slides i h0 hlt⟩
  · simp only [nextSlide]
    split
    · exact activeCount_showSlide_le slides inv _
    · exact inv
  · simp only [prevSlide]
    split
    · exact activeCount_showSlide_le slides inv _
    · exact inv

/-- Witness for C9 on the concrete three-slide collection, at in-range
index 2 and out-of-range index 9. -/
theorem navigation_single_active_witness :
    activeCount (showSlide slides3 2).1 ≤ 1 ∧
      activeCount (showAllSlides slides3) = 0 ∧
      activeCount (nextSlide slides3).1 ≤ 1 ∧
      activeCount (prevSlide slides3).1 ≤ 1 ∧
      activeCount (goToSlide slides3 9).1 ≤ 1 ∧
      activeCount (showSlide slides3 2).1 = 1 := by
  have h := navigation_single_active slides3 (by decide)
  exact ⟨h.1 2, h.2.1, h.2.2.1, h.2.2.2.1, h.2.2.2.2.1 9,
    h.2.2.2.2.2 2 (by decide) (by decide)⟩

example :
    validateContent (.jobj [("type", .jstr "doc"),
      ("content", .jarr [.jobj [("type", .jstr "slide"),
        ("content", .jarr [.jobj [("type", .jstr "row"),
          ("content", .jarr [.jnull])]])]])]) = .ok true := rfl

example :
    validateContent (.jobj [("type", .jstr "slide")]) =
      .error "Root node must be type 'doc', got 'slide'" := rfl

example :
    validateContent (.jobj [("type", .jstr "doc"),
      ("content", .jarr [.jobj [("type", .jstr "slide"),
        ("content", .jarr [])]])]) =
      .error "doc.content[0]: Slide must have at least one row" := rfl

theorem string_data_append (a b : String) : (a ++ b).data = a.data ++ b.data := by
  cases a
  cases b
  rfl

theorem string_append_assoc (a b c : String) : (a ++ b) ++ c = a ++ (b ++ c) := by
  apply String.ext
  rw [string_data_append, string_data_append, string_data_append, string_data_append,
    List.append_assoc]

theorem pathMsg_lit (path lit tail : String) (h : lit = ": " ++ tail) :
    path ++ lit = path ++ ": " ++ tail := by
  rw [h, ← string_append_assoc]

theorem pathMsg_got (path lit tail d q : String) (h : lit = ": " ++ tail) :
    ((path ++ lit) ++ d) ++ q = path ++ ": " ++ ((tail ++ d) ++ q) := by
  rw [h]
  rw [← string_append_assoc path ": " tail]
  rw [string_append_assoc (path ++ ": ") tail d]
  rw [string_append_assoc (path ++ ": ") (tail ++ d) q]

theorem take_three_append (l1 l2 : List Char) (h : l1.take 3 = ("doc" : String).data) :
    (l1 ++ l2).take 3 = ("doc" : String).data := by
  have hlen : 3 ≤ l1.length := by
    have hl := congrArg List.length h
    rw [List.length_take] at hl
    have hd : (("doc" : String).data).length = 3 := by decide
    omega
  rw [List.take_append_of_le_length hlen]
  exact h

theorem docPath_take_three (p : String) (h : DocPath p) :
    p.data.take 3 = ("doc" : String).data := by
  induction h with
  | root => decide
  | child q i hq ih =>
    rw [childPath, string_data_append, string_data_append, string_data_append]
    exact take_three_append _ _ (take_three_append _ _ (take_three_append _ _ ih))

theorem validateNodeStructure_error_format {node : JVal} {path m : String}
    (h : validateNodeStructure node path = .error m) :
    ∃ r, m = path ++ ": " ++ r := by
  unfold validateNodeStructure at h
  split at h
  · injection h with h'
    exact ⟨"Node must be an object", h'.symm.trans (pathMsg_lit path _ _ (by decide))⟩
  · split at h
    · injection h with h'
      exact ⟨"Node must have a 'type' string property",
        h'.symm.trans (pathMsg_lit path _ _ (by decide))⟩
    · split at h
      · injection h with h'
        exact ⟨"Node must have a 'type' string property",
          h'.symm.trans (pathMsg_lit path _ _ (by decide))⟩
      · simp at h

theorem validateRow_error_format {row : JVal} {path m : String}
    (h : validateRow row path = .error m) :
    ∃ r, m = path ++ ": " ++ r := by
  unfold validateRow at h
  split at h
  · next e hv =>
    injection h with h'
    subst h'
    exact validateNodeStructure_error_format hv
  · split at h
    · injection h with h'
      exact ⟨("Expected 'row', got '" ++ jsDisplay (getProp row "type")) ++ "'",
        h'.symm.trans (pathMsg_got path _ "Expected 'row', got '" _ "'" (by decide))⟩
    · split at h
      · split at h
        · injection h with h'
          exact ⟨"Row must have at least one column or content block",
            h'.symm.trans (pathMsg_lit path _ _ (by decide))⟩
        · simp at h
      · injection h with h'
        exact ⟨"Row must have content array",
          h'.symm.trans (pathMsg_lit path _ _ (by decide))⟩

theorem validateRowsFrom_error_format (path : String) :
    ∀ (i : Nat) (rows : List JVal) (m : String),
      validateRowsFrom path i rows = .error m →
      ∃ j r, m = childPath path j ++ ": " ++ r := by
  intro i rows
  induction rows generalizing i with
  | nil =>
    intro m h
    simp [validateRowsFrom] at h
  | cons x rest ih =>
    intro m h
    unfold validateRowsFrom at h
    split at h
    · next e hv =>
      injection h with h'
      subst h'
      obtain ⟨r, hr⟩ := validateRow_error_format hv
      exact ⟨i, r, hr⟩
    · exact ih (i + 1) m h

theorem validateSlide_error_format {slide : JVal} {path m : String}
    (h : validateSlide slide path = .error m) :
    (∃ r, m = path ++ ": " ++ r) ∨ ∃ j r, m = childPath path j ++ ": " ++ r := by
  unfold validateSlide at h
  split at h
  · next e hv =>
    injection h with h'
    subst h'
    exact Or.inl (validateNodeStructure_error_format hv)
  · split at h
    · injection h with h'
      exact Or.inl ⟨("Expected 'slide', got '" ++ jsDisplay (getProp slide "type")) ++ "'",
        h'.symm.trans (pathMsg_got path _ "Expected 'slide', got '" _ "'" (by decide))⟩
    · split at h
      · split at h
        · injection h with h'
          exact Or.inl ⟨"Slide must have at least one row",
            h'.symm.trans (pathMsg_lit path _ _ (by decide))⟩
        · exact Or.inr (validateRowsFrom_error_format path 0 _ m h)
      · injection h with h'
        exact Or.inl ⟨"Slide must have content array",
          h'.symm.trans (pathMsg_lit path _ _ (by decide))⟩

theorem validateSlidesFrom_error_format :
    ∀ (i : Nat) (slides : List JVal) (m : String),
      validateSlidesFrom i slides = .error m →
      ∃ p r, DocPath p ∧ m = p ++ ": " ++ r := by
  intro i slides
  induction slides generalizing i with
  | nil =>
    intro m h
    simp [validateSlidesFrom] at h
  | cons x rest ih =>
    intro m h
    unfold validateSlidesFrom at h
    split at h
    · next e hv =>
      injection h with h'
      subst h'
      rcases validateSlide_error_format hv with ⟨r, hr⟩ | ⟨j, r, hr⟩
      · exact ⟨childPath "doc" i, r, DocPath.child _ _ DocPath.root, hr⟩
      · exact ⟨childPath (childPath "doc" i) j, r,
          DocPath.child _ _ (DocPath.child _ _ DocPath.root), hr⟩
    · exact ih (i + 1) m h

/-- C3 counterexample: `validateContent` on the object `{type: "slide"}`
fails with the message `Root node must be type 'doc', got 'slide'`, which is
NOT of the form `"<path>: <reason>"` with a path rooted at `"doc"` (any such
message would begin with the three characters `doc`, but this one begins with
`Roo`).  The claim that every failure of the strict entry point — including a
root node whose type is not `'doc'` — carries a path-prefixed message is
therefore false. -/
theorem validateContent_path_counterexample :
    validateContent (.jobj [("type", .jstr "slide")]) =
        .error "Root node must be type 'doc', got 'slide'" ∧
      ¬ ∃ p r, DocPath p ∧
          ("Root node must be type 'doc', got 'slide'" : String) = p ++ ": " ++ r := by
  refine ⟨rfl, ?_⟩
  rintro ⟨p, r, hp, heq⟩
  have h3 := docPath_take_three p hp
  have hroo : ("Root node must be type 'doc', got 'slide'" : String).data.take 3 =
      ("doc" : String).data := by
    rw [heq, string_data_append, string_data_append]
    exact take_three_append _ _ (take_three_append _ _ h3)
  exact absurd hroo (by decide)

/-- C3 amended.  Every failure message of the strict entry point either has
the form `"<path>: <reason>"` with `<path>` a dotted/bracketed index chain
rooted at `"doc"` (this covers all node-structure, slide and row failures),
or is one of the three root-document diagnostics — the root-type mismatch
(`Root node must be type 'doc', got '…'`), the missing root content array
(`Doc must have content array`) and the empty root content array
(`Doc must have at least one slide`) — which carry no path prefix. -/
theorem validateContent_error_format (v : JVal) (m : String)
    (h : validateContent v = .error m) :
    (∃ p r, DocPath p ∧ m = p ++ ": " ++ r) ∨
      (∃ t, m = "Root node must be type 'doc', got '" ++ t ++ "'") ∨
      m = "Doc must have content array" ∨
      m = "Doc must have at least one slide" := by
  unfold validateContent at h
  split at h
  · simp at h
  · next e hv =>
    injection h with h'
    subst h'
    unfold validateDoc at hv
    split at hv
    · next e2 hns =>
      injection hv with h2
      subst h2
      obtain ⟨r, hr⟩ := validateNodeStructure_error_format hns
      exact Or.inl ⟨"doc", r, DocPath.root, hr⟩
    · split at hv
      · injection hv with h2
        exact Or.inr (Or.inl ⟨jsDisplay (getProp v "type"), h2.symm⟩)
      · split at hv
        · split at hv
          · injection hv with h2
            exact Or.inr (Or.inr (Or.inr h2.symm))
          · exact Or.inl (validateSlidesFrom_error_format 0 _ _ hv)
        · injection hv with h2
          exact Or.inr (Or.inr (Or.inl h2.symm))

/-- Witness for C3 (amended) at the concrete input `null`: the failure
message is `"doc: Node must be an object"`, which is path-rooted. -/
theorem validateContent_error_format_witness :
    (∃ p r, DocPath p ∧
        ("doc: Node must be an object" : String) = p ++ ": " ++ r) ∨
      (∃ t, ("doc: Node must be an object" : String) =
        "Root node must be type 'doc', got '" ++ t ++ "'") ∨
      ("doc: Node must be an object" : String) = "Doc must have content array" ∨
      ("doc: Node must be an object" : String) = "Doc must have at least one slide" :=
  validateContent_error_format .jnull "doc: Node must be an object" rfl

/-! Acceptance of well-shaped documents (shallow, terminating at the row
boundary). -/

theorem typeIs_getProp {node : JVal} {tag : String} (h : typeIs node tag = true) :
    getProp node "type" = some (.jstr tag) := by
  unfold typeIs at h
  split at h
  · next s heq =>
    have hs : s = tag := by simpa using h
    rw [heq, hs]
  · simp at h

theorem validateNodeStructure_ok {node : JVal} (path : String) {s : String}
    (h1 : truthy node = true) (h2 : typeofObject node = true)
    (h3 : getProp node "type" = some (.jstr s)) (hs : s ≠ "") :
    validateNodeStructure node path = .ok () := by
  unfold validateNodeStructure
  rw [h1, h2, h3]
  simp [truthy, isStringVal, hs]

theorem validateRow_ok {row : JVal} (path : String) (h : rowShapeOk row = true) :
    validateRow row path = .ok () := by
  unfold rowShapeOk at h
  simp only [Bool.and_eq_true] at h
  obtain ⟨⟨⟨h1, h2⟩, h3⟩, h4⟩ := h
  unfold validateRow
  rw [validateNodeStructure_ok path h1 h2 (typeIs_getProp h3) (by decide)]
  rw [h3]
  simp only [Bool.not_true, Bool.false_eq_true, if_false]
  split at h4
  · next content heq =>
    have hne : content.length ≠ 0 := by
      cases content
      · simp at h4
      · simp
    rw [if_neg hne]
  · simp at h4

theorem validateRowsFrom_ok (path : String) :
    ∀ (i : Nat) (rows : List JVal), rows.all rowShapeOk = true →
      validateRowsFrom path i rows = .ok () := by
  intro i rows
  induction rows generalizing i with
  | nil => intro _; rfl
  | cons x rest ih =>
    intro hall
    simp only [List.all_cons, Bool.and_eq_true] at hall
    unfold validateRowsFrom
    rw [validateRow_ok (childPath path i) hall.1]
    exact ih (i + 1) hall.2

theorem validateSlide_ok {slide : JVal} (path : String) (h : slideShapeOk slide = true) :
    validateSlide slide path = .ok () := by
  unfold slideShapeOk at h
  simp only [Bool.and_eq_true] at h
  obtain ⟨⟨⟨h1, h2⟩, h3⟩, h4⟩ := h
  unfold validateSlide
  rw [validateNodeStructure_ok path h1 h2 (typeIs_getProp h3) (by decide)]
  rw [h3]
  simp only [Bool.not_true, Bool.false_eq_true, if_false]
  split at h4
  · next content heq =>
    simp only [Bool.and_eq_true] at h4
    have hne : content.length ≠ 0 := by
      cases content
      · simp at h4
      · simp
    rw [if_neg hne]
    exact validateRowsFrom_ok path 0 content h4.2
  · simp at h4

theorem validateSlidesFrom_ok :
    ∀ (i : Nat) (slides : List JVal), slides.all slideShapeOk = true →
      validateSlidesFrom i slides = .ok () := by
  intro i slides
  induction slides generalizing i with
  | nil => intro _; rfl
  | cons x rest ih =>
    intro hall
    simp only [List.all_cons, Bool.and_eq_true] at hall
    unfold validateSlidesFrom
    rw [validateSlide_ok (childPath "doc" i) hall.1]
    exact ih (i + 1) hall.2

theorem validateDoc_ok {doc : JVal} (h : docShapeOk doc = true) :
    validateDoc doc = .ok () := by
  unfold docShapeOk at h
  simp only [Bool.and_eq_true] at h
  obtain ⟨⟨⟨h1, h2⟩, h3⟩, h4⟩ := h
  unfold validateDoc
  rw [validateNodeStructure_ok "doc" h1 h2 (typeIs_getProp h3) (by decide)]
  rw [h3]
  simp only [Bool.not_true, Bool.false_eq_true, if_false]
  split at h4
  · next content heq =>
    simp only [Bool.and_eq_true] at h4
    have hne : content.length ≠ 0 := by
      cases content
      · simp at h4
      · simp
    rw [if_neg hne]
    exact validateSlidesFrom_ok 0 content h4.2
  · simp at h4

/-- C4.  Validator acceptance and shallow row boundary: every candidate whose
root is an object tagged `"doc"` with a non-empty content array of objects
tagged `"slide"`, each with a non-empty content array of objects tagged
`"row"`, each with a non-empty content array, validates successfully — the
shape predicates place no constraint whatsoever on the rows' children, so
validation terminates at the row boundary. -/
theorem validateContent_accepts (v : JVal) (h : docShapeOk v = true) :
    validateContent v = .ok true := by
  unfold validateContent
  rw [validateDoc_ok h]

/-- Witness for C4: the concrete document with junk row children validates. -/
theorem validateContent_accepts_witness :
    docShapeOk docW = true ∧ validateContent docW = .ok true :=
  ⟨rfl, validateContent_accepts docW rfl⟩

theorem validateContent_ok_true {v : JVal} {b : Bool}
    (h : validateContent v = .ok b) : b = true := by
  unfold validateContent at h
  split at h
  · injection h with h'
    exact h'.symm
  · simp at h

/-- C5.  Safe validation entry point: `safeValidateContent` never throws (it
is a total function into a result record), returns `valid = true` exactly
when the strict entry point succeeds, and otherwise returns `valid = false`
together with the same failure message the strict entry point throws. -/
theorem safeValidateContent_spec (v : JVal) :
    ((safeValidateContent v).valid = true ↔ validateContent v = .ok true) ∧
      (∀ m, validateContent v = .error m →
        safeValidateContent v = { valid := false, error := some m }) := by
  cases hv : validateContent v with
  | ok b =>
    have hb := validateContent_ok_true hv
    subst hb
    have hs : safeValidateContent v = { valid := true } := by
      unfold safeValidateContent
      rw [hv]
    constructor
    · rw [hs]
      simp
    · intro m hm
      exact absurd hm (by simp)
  | error e =>
    have hs : safeValidateContent v = { valid := false, error := some e } := by
      unfold safeValidateContent
      rw [hv]
    constructor
    · rw [hs]
      simp
    · intro m hm
      injection hm with he
      subst he
      exact hs

/-- Witness for C5 at the concrete input `null`: the strict entry point
throws `"doc: Node must be an object"` and the safe entry point returns the
same message in a `valid = false` result. -/
theorem safeValidateContent_spec_witness :
    safeValidateContent .jnull =
      { valid := false, error := some "doc: Node must be an object" } :=
  (safeValidateContent_spec .jnull).2 "doc: Node must be an object" rfl

end AutoArtifacts

